import Mathlib

/-!
Verification of the MK Processor bootstrap and update-flow orchestrator
(`main.py`) against its natural-language specification.

The Python module is shallowly embedded as trace-producing Lean functions
over an abstract environment:

* configuration is an opaque accessor (`Config`) whose lookups never fail
  and return the caller-supplied default when a key is absent;
* the Update Client (`update.updater.Updater`, whose source is outside the
  embedded file) is abstracted by its observable behaviour: the result of
  its check / download / install steps, supplied by the environment;
* each observable side effect (constructing an updater, calling the client,
  showing a window, scheduling the one-shot timer, showing a warning
  dialog, entering the event loop) is recorded as an event in a trace.

Fallible steps return `Except String`: `Except.error e` models a Python
exception propagating out of the embedded function.
-/

/-- Observable events emitted by the orchestrator, in program order.
`mkUpdater v u` records `Updater(v, u)` (with `u = none` for the
single-argument constructor `Updater(v)` used by `start_update`);
`checkCall`, `downloadCall`, `installCall` record invocations of the
Update Client's three steps; `warnDialog t m` records a
`QMessageBox.warning` with title `t` and message `m`; `singleShot d`
records `QTimer.singleShot(d, ...)`. -/
inductive Ev where
  | installExcHook : Ev
  | loadPluginsCall : Ev
  | constructWindow : Ev
  | showWindow : Ev
  | mkUpdater (version : String) (url : Option String) : Ev
  | checkCall (version url : String) : Ev
  | downloadCall (version : String) : Ev
  | installCall (artifact : String) : Ev
  | warnDialog (title msg : String) : Ev
  | singleShot (delayMs : Nat) : Ev
  | execLoop : Ev
  deriving DecidableEq, Repr

/-- The result record of the Update Client's check step
(`update_info` in `main.py`, a dict accessed with `.get`). -/
structure UpdateInfo where
  version : Option String
  release_notes : Option String
  download_ref : Option String
  deriving DecidableEq, Repr

/-- The configuration accessor: `config.get(section, key, default)`.
Lookups never fail; a missing key yields the caller-supplied default, so
the accessor is total.  Boolean-valued and string-valued lookups are
modelled as separate total functions. -/
structure Config where
  getBool : String → String → Bool → Bool
  getStr : String → String → String → String

/-- The environment of one bootstrap run: the configuration store, the
Update Client's behaviour (as functions of the constructor arguments the
orchestrator passes), the plugin manager's outcome, the event-loop return
code, and the filesystem facts `main` observes. `checkResult` returning
`Except.error e` models `Updater.check_for_updates()` raising (a transport
or parse failure); `mkdirError = some e` models `os.makedirs` raising. -/
structure Env where
  config : Config
  checkResult : String → String → Except String (Option UpdateInfo)
  downloadResult : String → Option String
  installResult : String → String → Bool
  pluginLoad : Except String Unit
  execResult : Int
  webFolderExists : Bool
  mkdirError : Option String

/-- Embedding of `check_for_updates` (`main.py` lines 42-57).

```python
def check_for_updates():
    config = get_config()
    if not config.get("app", "check_updates", True):
        return False
    current_version = config.get("app", "version", "3.0.6")
    update_url = config.get("app", "update_url",
                            "https://example.com/updates/mk_processor.json")
    updater = Updater(current_version, update_url)
    update_info = updater.check_for_updates()
    if update_info:
        return update_info
    return False
```

The function body has no exception handler, so if the client's check
raises, the `Except.error` propagates as the result.  `Option UpdateInfo`
collapses Python truthiness: `none` stands for `False`/`None`/empty. -/
def check_for_updates (env : Env) : Except String (Option UpdateInfo) × List Ev :=
  if env.config.getBool "app" "check_updates" true = false then
    (Except.ok none, [])
  else
    let current_version := env.config.getStr "app" "version" "3.0.6"
    let update_url := env.config.getStr "app" "update_url"
      "https://example.com/updates/mk_processor.json"
    let tr := [Ev.mkUpdater current_version (some update_url),
               Ev.checkCall current_version update_url]
    match env.checkResult current_version update_url with
    | Except.error e => (Except.error e, tr)
    | Except.ok info => (Except.ok info, tr)

/-- The warning message built at `main.py` lines 81-83 when the web
folder cannot be created: it names the path and the underlying error. -/
def dirWarnMsg (web_folder e : String) : String :=
  "Could not create web folder at " ++ web_folder ++ ".\n\nError: " ++ e ++
    "\n\nThe application will continue, but functionality may be limited."

/-- Events of the directory-check step (`main.py` lines 72-84): if the
web folder exists nothing happens; otherwise `os.makedirs` is attempted,
and only on failure is the non-fatal warning dialog shown. -/
def dirEvents (env : Env) (web_folder : String) : List Ev :=
  if env.webFolderExists then []
  else
    match env.mkdirError with
    | none => []
    | some e => [Ev.warnDialog "Directory Warning" (dirWarnMsg web_folder e)]

/-- Embedding of `main` (`main.py` lines 60-106): install the global
exception hook, check/create the web folder (non-fatal on failure), load
plugins (failures propagate), construct and show the main window, then
run `check_for_updates`; on a truthy result schedule
`QTimer.singleShot(1000, ...)` exactly once; finally enter `app.exec_()`,
whose return value is the function's result. An `Except.error` result
models an exception escaping `main`. -/
def mainRun (env : Env) : Except String Int × List Ev :=
  let web_folder :=
    env.config.getStr "google_drive" "web_folder" "~/GoogleDriveMount/Web/"
  let pre := Ev.installExcHook :: dirEvents env web_folder
  match env.pluginLoad with
  | Except.error e => (Except.error e, pre ++ [Ev.loadPluginsCall])
  | Except.ok _ =>
    let pre2 := pre ++ [Ev.loadPluginsCall, Ev.constructWindow, Ev.showWindow]
    match check_for_updates env with
    | (Except.error e, cevs) => (Except.error e, pre2 ++ cevs)
    | (Except.ok none, cevs) =>
      (Except.ok env.execResult, pre2 ++ cevs ++ [Ev.execLoop])
    | (Except.ok (some _), cevs) =>
      (Except.ok env.execResult,
        pre2 ++ cevs ++ [Ev.singleShot 1000, Ev.execLoop])

/-- Embedding of the `__main__` wrapper (`main.py` lines 165-189) joined
with the import guard (lines 19-39): if the module imports fail the
process exits 1; otherwise `sys.exit(main())` makes the exit code the
event-loop return value; if an exception escapes `main`, the wrapper
prints it, attempts an error dialog — whose own failure (`dialogFails`)
is swallowed by the bare `except: pass` — and exits 1 either way. -/
def processExit (env : Env) (importOk dialogFails : Bool) : Int :=
  if importOk = false then 1
  else
    match (mainRun env).1 with
    | Except.ok code => code
    | Except.error _ =>
      -- the error-dialog attempt may itself fail; that failure is
      -- swallowed (`except: pass`) and the exit code is 1 regardless
      if dialogFails then 1 else 1

/-- What the update dialog displays (`main.py` lines 120-128): the
candidate version from `update_info`, the currently running version
re-read from configuration at prompt time, and the release notes with
the default text when none are supplied. -/
structure DialogView where
  candidateVersion : Option String
  currentVersion : String
  releaseNotes : String
  deriving DecidableEq, Repr

/-- The Update Client behaviour visible to `start_update`: the download
and install steps, as functions of the version the `Updater` was
constructed with (and, for install, the artifact). -/
structure Client where
  download : String → Option String
  install : String → String → Bool

/-- Outcome of one run of the update flow. -/
inductive UpdOutcome where
  | declined : UpdOutcome
  | downloadFailed : UpdOutcome
  | installFailed : UpdOutcome
  | installed : UpdOutcome
  deriving DecidableEq, Repr

/-- Result of one run of `show_update_dialog`: the terminal outcome, the
trace of client calls and dialogs, and what the offer displayed. -/
structure FlowResult where
  outcome : UpdOutcome
  events : List Ev
  view : DialogView
  deriving Repr

/-- The offer surface built at `main.py` lines 120-128. The current
version is read from `get_config()` at prompt time (line 122), not from
any value captured during the check step. -/
def dialogView (cfgPrompt : Config) (info : UpdateInfo) : DialogView :=
  { candidateVersion := info.version
    currentVersion := cfgPrompt.getStr "app" "version" "3.0.6"
    releaseNotes := info.release_notes.getD "No release notes available." }

/-- Embedding of the nested `start_update` (`main.py` lines 143-157).

```python
def start_update():
    dialog.accept()
    updater = Updater(get_config().get("app", "version", "3.0.6"))
    update_file = updater.download_update()
    if update_file:
        result = updater.install_update(update_file)
        if not result:
            QMessageBox.warning(parent, "Update Failed",
                "Failed to install the update. Please try again later.")
```

The version is re-read from configuration at accept time (`cfgAccept`);
the `Updater` gets no manifest URL and nothing from `update_info`.
Python truthiness of `update_file` is `none` or the empty string falsy.
A falsy download ends the flow silently (no install, no dialog). -/
def start_update (cfgAccept : Config) (cl : Client) : UpdOutcome × List Ev :=
  let v := cfgAccept.getStr "app" "version" "3.0.6"
  let tr := [Ev.mkUpdater v none, Ev.downloadCall v]
  match cl.download v with
  | none => (UpdOutcome.downloadFailed, tr)
  | some a =>
    if a = "" then (UpdOutcome.downloadFailed, tr)
    else if cl.install v a then (UpdOutcome.installed, tr ++ [Ev.installCall a])
    else
      (UpdOutcome.installFailed,
        tr ++ [Ev.installCall a,
               Ev.warnDialog "Update Failed"
                 "Failed to install the update. Please try again later."])

/-- Embedding of `show_update_dialog` (`main.py` lines 109-162): the offer
is displayed (its view computed from prompt-time configuration); the
Later button rejects the dialog and nothing else runs; the Update Now
button runs `start_update`, which reads configuration again at accept
time (`cfgAccept` — passed separately from `cfgPrompt` because the code
calls `get_config()` afresh at each of the two sites). -/
def show_update_dialog (cfgPrompt cfgAccept : Config) (cl : Client)
    (info : UpdateInfo) (accepts : Bool) : FlowResult :=
  let view := dialogView cfgPrompt info
  if accepts then
    let r := start_update cfgAccept cl
    { outcome := r.1, events := r.2, view := view }
  else
    { outcome := UpdOutcome.declined, events := [], view := view }

/-- `a` occurs strictly before `b` somewhere in the trace `tr`. -/
def occursBefore (a b : Ev) (tr : List Ev) : Prop :=
  ∃ l₁ l₂ l₃, tr = l₁ ++ a :: (l₂ ++ b :: l₃)

/-- A configuration in which every lookup returns its default. -/
def cfgDefaults : Config :=
  { getBool := fun _ _ d => d, getStr := fun _ _ d => d }

/-- Environment for the failing input of the update-check claim: all
configuration keys at their defaults (so the toggle is on) and an Update
Client whose check raises a transport failure. -/
def envCheckRaises : Env :=
  { config := cfgDefaults
    checkResult := fun _ _ => Except.error "transport failure"
    downloadResult := fun _ => none
    installResult := fun _ _ => false
    pluginLoad := Except.ok ()
    execResult := 0
    webFolderExists := true
    mkdirError := none }

/-- A configuration whose update-check toggle is off and everything else
at defaults. -/
def cfgToggleOff : Config :=
  { getBool := fun _ _ _ => false, getStr := fun _ _ d => d }

/-- Environment with the update-check toggle disabled. -/
def envToggleOff : Env :=
  { config := cfgToggleOff
    checkResult := fun _ _ => Except.ok none
    downloadResult := fun _ => none
    installResult := fun _ _ => false
    pluginLoad := Except.ok ()
    execResult := 0
    webFolderExists := true
    mkdirError := none }

/-- A sample `UpdateInfo` with all fields present. -/
def infoSample : UpdateInfo :=
  { version := some "3.1.0"
    release_notes := some "Bug fixes"
    download_ref := some "https://example.com/mk-3.1.0.zip" }

/-- A client whose download step yields nothing. -/
def clNone : Client :=
  { download := fun _ => none, install := fun _ _ => true }

/-- A client whose download succeeds and whose install reports failure. -/
def clInstallFail : Client :=
  { download := fun _ => some "mk_update.zip", install := fun _ _ => false }

/-- A configuration whose version string reads `9.9.9`. -/
def cfg999 : Config :=
  { getBool := fun _ _ d => d, getStr := fun _ _ _ => "9.9.9" }

/-- C1: the claim says a transport or parse failure raised by the Update
Client's check never propagates out of `check_for_updates`.  The code has
no exception handler around `updater.check_for_updates()` (lines 51-52),
so at this failing input — default configuration (toggle enabled) and a
client check raising "transport failure" — the exception propagates out
of `check_for_updates` and escapes `mainRun` as well, tearing down the
bootstrap instead of being treated as "no update found". -/
theorem C1_check_exception_propagates :
    (check_for_updates envCheckRaises).1 = Except.error "transport failure" ∧
    (mainRun envCheckRaises).1 = Except.error "transport failure" := by
  constructor <;> rfl

/-- C3: whenever the `check_updates` toggle reads false,
`check_for_updates` returns the absent result and its trace is empty: no
`Updater` is constructed and the client's check is never invoked. -/
theorem C3_toggle_off_no_client (env : Env)
    (h : env.config.getBool "app" "check_updates" true = false) :
    check_for_updates env = (Except.ok none, []) := by
  simp [check_for_updates, h]

/-- Witness for C3 at a concrete environment whose toggle is off. -/
theorem C3_witness :
    envToggleOff.config.getBool "app" "check_updates" true = false ∧
    check_for_updates envToggleOff = (Except.ok none, []) :=
  ⟨rfl, C3_toggle_off_no_client envToggleOff rfl⟩

/-- C5: when the accepted flow's download step returns a falsy result
(`None` or the empty string), the outcome is the download-failure
terminal state, `install_update` is never called, and no dialog of any
kind is shown (no separate error detail); the embedding is total, so no
exception is raised. -/
theorem C5_falsy_download_no_install (cfgPrompt cfgAccept : Config)
    (cl : Client) (info : UpdateInfo)
    (h : cl.download (cfgAccept.getStr "app" "version" "3.0.6") = none ∨
         cl.download (cfgAccept.getStr "app" "version" "3.0.6") = some "") :
    (show_update_dialog cfgPrompt cfgAccept cl info true).outcome =
      UpdOutcome.downloadFailed ∧
    (∀ a, Ev.installCall a ∉
      (show_update_dialog cfgPrompt cfgAccept cl info true).events) ∧
    (∀ t m, Ev.warnDialog t m ∉
      (show_update_dialog cfgPrompt cfgAccept cl info true).events) := by
  rcases h with h | h <;>
    simp [show_update_dialog, start_update, h]

/-- Witness for C5: a client whose download yields nothing. -/
theorem C5_witness :
    clNone.download (cfgDefaults.getStr "app" "version" "3.0.6") = none ∧
    (show_update_dialog cfgDefaults cfgDefaults clNone infoSample true).outcome =
      UpdOutcome.downloadFailed :=
  ⟨rfl,
    (C5_falsy_download_no_install cfgDefaults cfgDefaults clNone infoSample
      (Or.inl rfl)).1⟩

/-- C6: when the download yields a truthy artifact and the install step
reports failure, the user sees the "Update Failed" warning telling them
installation did not succeed and to try again later, the outcome is the
terminal install-failure state, and `install_update` was invoked exactly
once — no automatic retry. -/
theorem C6_install_failure_warns_once (cfgPrompt cfgAccept : Config)
    (cl : Client) (info : UpdateInfo) (a : String)
    (hdl : cl.download (cfgAccept.getStr "app" "version" "3.0.6") = some a)
    (hne : a ≠ "")
    (hin : cl.install (cfgAccept.getStr "app" "version" "3.0.6") a = false) :
    (show_update_dialog cfgPrompt cfgAccept cl info true).outcome =
      UpdOutcome.installFailed ∧
    Ev.warnDialog "Update Failed"
        "Failed to install the update. Please try again later." ∈
      (show_update_dialog cfgPrompt cfgAccept cl info true).events ∧
    ((show_update_dialog cfgPrompt cfgAccept cl info true).events.count
        (Ev.installCall a)) = 1 ∧
    (∀ b, Ev.installCall b ∈
        (show_update_dialog cfgPrompt cfgAccept cl info true).events →
      b = a) := by
  simp [show_update_dialog, start_update, hdl, hne, hin, List.count_cons]

/-- Witness for C6: a client that downloads an artifact and fails to
install it. -/
theorem C6_witness :
    clInstallFail.download (cfgDefaults.getStr "app" "version" "3.0.6") =
      some "mk_update.zip" ∧
    (show_update_dialog cfgDefaults cfgDefaults clInstallFail infoSample
        true).outcome = UpdOutcome.installFailed :=
  ⟨rfl,
    (C6_install_failure_warns_once cfgDefaults cfgDefaults clInstallFail
      infoSample "mk_update.zip" rfl (by decide) rfl).1⟩

/-- C8: declining the offer ends the flow in the declined state with an
empty event trace — in particular neither `download_update` nor
`install_update` is ever invoked and no dialog beyond the offer is
shown. -/
theorem C8_decline_no_side_effects (cfgPrompt cfgAccept : Config)
    (cl : Client) (info : UpdateInfo) :
    (show_update_dialog cfgPrompt cfgAccept cl info false).outcome =
      UpdOutcome.declined ∧
    (show_update_dialog cfgPrompt cfgAccept cl info false).events = [] := by
  constructor <;> rfl

/-- C9: the running version shown by the offer equals the prompt-time
configuration read, and the `Updater` used for downloading is constructed
with — and the download invoked for — the accept-time configuration read,
for arbitrary and independent prompt-time and accept-time configurations;
no other updater construction occurs.  The check-time version is not an
input of the flow at all, so it cannot be reused: both sites are fresh
`get_config()` fetches, not cached values. -/
theorem C9_version_reread_both_sites (cfgPrompt cfgAccept : Config)
    (cl : Client) (info : UpdateInfo) :
    (show_update_dialog cfgPrompt cfgAccept cl info true).view.currentVersion =
      cfgPrompt.getStr "app" "version" "3.0.6" ∧
    Ev.mkUpdater (cfgAccept.getStr "app" "version" "3.0.6") none ∈
      (show_update_dialog cfgPrompt cfgAccept cl info true).events ∧
    Ev.downloadCall (cfgAccept.getStr "app" "version" "3.0.6") ∈
      (show_update_dialog cfgPrompt cfgAccept cl info true).events ∧
    (∀ v u, Ev.mkUpdater v u ∈
        (show_update_dialog cfgPrompt cfgAccept cl info true).events →
      v = cfgAccept.getStr "app" "version" "3.0.6" ∧ u = none) := by
  cases h : cl.download (cfgAccept.getStr "app" "version" "3.0.6") with
  | none => simp [show_update_dialog, start_update, dialogView, h]
  | some a =>
    by_cases ha : a = "" <;>
      cases hi : cl.install (cfgAccept.getStr "app" "version" "3.0.6") a <;>
        simp [show_update_dialog, start_update, dialogView, h, ha, hi]

/-- Witness for C9: prompt-time and accept-time configurations that
disagree — the offer shows the prompt-time value and the download uses
the accept-time value. -/
theorem C9_witness :
    (show_update_dialog cfgDefaults cfg999 clNone infoSample
        true).view.currentVersion = "3.0.6" ∧
    Ev.mkUpdater "9.9.9" none ∈
      (show_update_dialog cfgDefaults cfg999 clNone infoSample true).events :=
  ⟨(C9_version_reread_both_sites cfgDefaults cfg999 clNone infoSample).1,
    (C9_version_reread_both_sites cfgDefaults cfg999 clNone infoSample).2.1⟩

/-- C10: two accepted offers whose `UpdateInfo` records agree on the
version field (differing at most in `release_notes` and `download_ref`)
produce identical download/install behaviour under the same
configuration and client: same outcome, same event trace, and the same
displayed versions.  The `Updater` used for downloading is built solely
from the accept-time configuration version; no field of `UpdateInfo` is
passed to it, so the check step's `download_ref` never influences which
artifact is downloaded or installed. -/
theorem C10_info_fields_no_influence (cfgPrompt cfgAccept : Config)
    (cl : Client) (i1 i2 : UpdateInfo) (hv : i1.version = i2.version) :
    (show_update_dialog cfgPrompt cfgAccept cl i1 true).outcome =
      (show_update_dialog cfgPrompt cfgAccept cl i2 true).outcome ∧
    (show_update_dialog cfgPrompt cfgAccept cl i1 true).events =
      (show_update_dialog cfgPrompt cfgAccept cl i2 true).events ∧
    (show_update_dialog cfgPrompt cfgAccept cl i1 true).view.candidateVersion =
      (show_update_dialog cfgPrompt cfgAccept cl i2 true).view.candidateVersion ∧
    (show_update_dialog cfgPrompt cfgAccept cl i1 true).view.currentVersion =
      (show_update_dialog cfgPrompt cfgAccept cl i2 true).view.currentVersion := by
  simp [show_update_dialog, dialogView, hv]

/-- A second sample `UpdateInfo`: same version as `infoSample`, different
release notes and download reference, both truthy. -/
def infoSampleB : UpdateInfo :=
  { version := some "3.1.0"
    release_notes := some "Performance work"
    download_ref := some "https://mirror.example.org/mk-3.1.0.zip" }

/-- Witness for C10: two concrete records sharing the version but
differing in notes and download reference behave identically. -/
theorem C10_witness :
    infoSample.version = infoSampleB.version ∧
    (show_update_dialog cfgDefaults cfgDefaults clInstallFail infoSample
        true).events =
      (show_update_dialog cfgDefaults cfgDefaults clInstallFail infoSampleB
        true).events :=
  ⟨rfl,
    (C10_info_fields_no_influence cfgDefaults cfgDefaults clInstallFail
      infoSample infoSampleB rfl).2.1⟩

/-- C7: the process exit code is 0 exactly when the run completes with a
normal event-loop termination (`app.exec_()` returning 0); a failed
module import exits 1; an exception escaping the orchestrated run exits
1 for either value of `dialogFails`, i.e. even when the attempt to show
the error dialog itself fails and is swallowed. -/
theorem C7_exit_codes (env : Env) (importOk dialogFails : Bool) :
    (processExit env importOk dialogFails = 0 ↔
      (importOk = true ∧ (mainRun env).1 = Except.ok 0)) ∧
    (importOk = false → processExit env importOk dialogFails = 1) ∧
    (∀ e, (mainRun env).1 = Except.error e →
      processExit env importOk dialogFails = 1) := by
  cases importOk with
  | false => simp [processExit]
  | true =>
    cases h : (mainRun env).1 with
    | ok code => simp [processExit, h]
    | error e => simp [processExit, h]

/-- Environment whose run raises (the unhandled check exception). -/
def envRunError : Env :=
  { config := cfgDefaults
    checkResult := fun _ _ => Except.error "boom"
    downloadResult := fun _ => none
    installResult := fun _ _ => false
    pluginLoad := Except.ok ()
    execResult := 0
    webFolderExists := true
    mkdirError := none }

/-- Witness for C7: with a run that raises and a failing error dialog,
the exit code is still 1. -/
theorem C7_witness :
    (mainRun envRunError).1 = Except.error "boom" ∧
    processExit envRunError true true = 1 :=
  ⟨rfl, (C7_exit_codes envRunError true true).2.2 "boom" rfl⟩

/-- Events following the update check inside `mainRun`, as a function of
the check's result: an escaping exception ends the run, an absent result
goes straight to the event loop, a present result schedules the one-shot
timer first. -/
def tailEvents : Except String (Option UpdateInfo) → List Ev
  | Except.error _ => []
  | Except.ok none => [Ev.execLoop]
  | Except.ok (some _) => [Ev.singleShot 1000, Ev.execLoop]

theorem dirEvents_shape (env : Env) (w : String) :
    dirEvents env w = [] ∨
    ∃ e, dirEvents env w =
      [Ev.warnDialog "Directory Warning" (dirWarnMsg w e)] := by
  unfold dirEvents
  split
  · left; rfl
  · split
    · left; rfl
    · right; exact ⟨_, rfl⟩

theorem check_trace_shape (env : Env) :
    (check_for_updates env).2 = [] ∨
    ∃ v u, (check_for_updates env).2 =
      [Ev.mkUpdater v (some u), Ev.checkCall v u] := by
  unfold check_for_updates
  split
  · left; rfl
  · simp only []
    split <;> (right; exact ⟨_, _, rfl⟩)

theorem mainRun_trace (env : Env) (hp : env.pluginLoad = Except.ok ()) :
    (mainRun env).2 =
      Ev.installExcHook ::
        (dirEvents env (env.config.getStr "google_drive" "web_folder"
            "~/GoogleDriveMount/Web/") ++
         ([Ev.loadPluginsCall, Ev.constructWindow, Ev.showWindow] ++
          ((check_for_updates env).2 ++
            tailEvents (check_for_updates env).1))) := by
  rcases hce : check_for_updates env with ⟨r, cevs⟩
  unfold mainRun
  rw [hp, hce]
  rcases r with e | o
  · simp [tailEvents]
  · rcases o with _ | i <;> simp [tailEvents]

theorem mainRun_ok_of_check_ok (env : Env)
    (hp : env.pluginLoad = Except.ok ()) (r : Option UpdateInfo)
    (hc : (check_for_updates env).1 = Except.ok r) :
    (mainRun env).1 = Except.ok env.execResult := by
  rcases hce : check_for_updates env with ⟨r', cevs⟩
  rw [hce] at hc
  unfold mainRun
  rw [hp, hce]
  cases hc
  rcases r with _ | i <;> simp

theorem tailEvents_no_window (r : Except String (Option UpdateInfo)) :
    (tailEvents r).count Ev.constructWindow = 0 ∧
    (tailEvents r).count Ev.showWindow = 0 := by
  rcases r with _ | o
  · simp [tailEvents]
  · rcases o with _ | i <;> simp [tailEvents]

/-- C2: in a bootstrap run whose plugin loading succeeds, if the update
check yields an `UpdateInfo` then the one-shot `QTimer.singleShot` with a
1000 ms delay is scheduled exactly once, and the scheduling occurs
strictly after the shell's `show()` in the event trace (the deferred
callback therefore runs only after `show()`, since the single-threaded
loop dispatches it later still); if the check yields the absent result,
no timer of any delay is ever scheduled. -/
theorem C2_notification_once_after_show (env : Env)
    (hp : env.pluginLoad = Except.ok ()) :
    (∀ info, (check_for_updates env).1 = Except.ok (some info) →
      ((mainRun env).2.count (Ev.singleShot 1000) = 1 ∧
       occursBefore Ev.showWindow (Ev.singleShot 1000) (mainRun env).2)) ∧
    ((check_for_updates env).1 = Except.ok none →
      ∀ d, Ev.singleShot d ∉ (mainRun env).2) := by
  have ht := mainRun_trace env hp
  constructor
  · intro info hc
    constructor
    · rw [ht, hc]
      rcases dirEvents_shape env (env.config.getStr "google_drive"
          "web_folder" "~/GoogleDriveMount/Web/") with hd | ⟨e, hd⟩ <;>
        rcases check_trace_shape env with hcv | ⟨v, u, hcv⟩ <;>
          simp [hd, hcv, tailEvents, List.count_append, List.count_cons]
    · unfold occursBefore
      refine ⟨Ev.installExcHook ::
          (dirEvents env (env.config.getStr "google_drive" "web_folder"
            "~/GoogleDriveMount/Web/") ++
           [Ev.loadPluginsCall, Ev.constructWindow]),
        (check_for_updates env).2, [Ev.execLoop], ?_⟩
      rw [ht, hc]
      simp [tailEvents]
  · intro hc d
    rw [ht, hc]
    rcases dirEvents_shape env (env.config.getStr "google_drive"
        "web_folder" "~/GoogleDriveMount/Web/") with hd | ⟨e, hd⟩ <;>
      rcases check_trace_shape env with hcv | ⟨v, u, hcv⟩ <;>
        simp [hd, hcv, tailEvents]

/-- Environment in which the update check finds a new version. -/
def envUpdateAvail : Env :=
  { config := cfgDefaults
    checkResult := fun _ _ => Except.ok (some infoSample)
    downloadResult := fun _ => none
    installResult := fun _ _ => false
    pluginLoad := Except.ok ()
    execResult := 0
    webFolderExists := true
    mkdirError := none }

/-- Witness for C2 at a concrete run with an available update. -/
theorem C2_witness :
    envUpdateAvail.pluginLoad = Except.ok () ∧
    (check_for_updates envUpdateAvail).1 = Except.ok (some infoSample) ∧
    (mainRun envUpdateAvail).2.count (Ev.singleShot 1000) = 1 :=
  ⟨rfl, rfl,
    ((C2_notification_once_after_show envUpdateAvail rfl).1 infoSample
      rfl).1⟩

/-- C4: when the web folder is absent and its creation raises, the run
shows the non-fatal warning dialog naming the path and the error, still
constructs and shows the main window exactly once, and — whenever the
remaining steps do not themselves raise — completes normally with the
event loop's return value. -/
theorem C4_dir_failure_nonfatal (env : Env) (e : String)
    (hw : env.webFolderExists = false) (hm : env.mkdirError = some e)
    (hp : env.pluginLoad = Except.ok ()) :
    Ev.warnDialog "Directory Warning"
        (dirWarnMsg (env.config.getStr "google_drive" "web_folder"
          "~/GoogleDriveMount/Web/") e) ∈ (mainRun env).2 ∧
    (mainRun env).2.count Ev.constructWindow = 1 ∧
    (mainRun env).2.count Ev.showWindow = 1 ∧
    (∀ r, (check_for_updates env).1 = Except.ok r →
      (mainRun env).1 = Except.ok env.execResult) := by
  have ht := mainRun_trace env hp
  have hd : dirEvents env (env.config.getStr "google_drive" "web_folder"
      "~/GoogleDriveMount/Web/") =
      [Ev.warnDialog "Directory Warning"
        (dirWarnMsg (env.config.getStr "google_drive" "web_folder"
          "~/GoogleDriveMount/Web/") e)] := by
    simp [dirEvents, hw, hm]
  refine ⟨?_, ?_, ?_, fun r hc => mainRun_ok_of_check_ok env hp r hc⟩
  · rw [ht, hd]; simp
  · rw [ht, hd]
    rcases check_trace_shape env with hcv | ⟨v, u, hcv⟩ <;>
      simp [hcv, List.count_append, List.count_cons,
        (tailEvents_no_window (check_for_updates env).1).1]
  · rw [ht, hd]
    rcases check_trace_shape env with hcv | ⟨v, u, hcv⟩ <;>
      simp [hcv, List.count_append, List.count_cons,
        (tailEvents_no_window (check_for_updates env).1).2]

/-- Environment whose web folder is missing and cannot be created. -/
def envDirFail : Env :=
  { config := cfgDefaults
    checkResult := fun _ _ => Except.ok none
    downloadResult := fun _ => none
    installResult := fun _ _ => false
    pluginLoad := Except.ok ()
    execResult := 0
    webFolderExists := false
    mkdirError := some "Permission denied" }

/-- Witness for C4: a permission-denied directory creation still shows
the window exactly once. -/
theorem C4_witness :
    envDirFail.webFolderExists = false ∧
    envDirFail.mkdirError = some "Permission denied" ∧
    (mainRun envDirFail).2.count Ev.showWindow = 1 :=
  ⟨rfl, rfl,
    (C4_dir_failure_nonfatal envDirFail "Permission denied" rfl rfl
      rfl).2.2.1⟩
